import Mathlib

set_option maxHeartbeats 1000000

/-
Verification development for drivers/watchdog/virtio_wdt.c.

The driver's four control operations (virtwdt_start, virtwdt_stop,
virtwdt_ping, virtwdt_set_timeout) and the shared helper send_event are
embedded as sequences of atomic actions on the single event virtqueue,
together with a small-step semantics in which the host (the remote
consumer) may consume a submitted buffer at any time.  virtwdt_probe and
virtwdt_init_vq are embedded as functions of an environment recording
which attach stage succeeds.
-/

/-- Event types carried by struct virtio_watchdog_event. -/
inductive WdtEvent where
  | heartbeat
  | enable
  | disable
  deriving DecidableEq

/-- Modelled from the spec: the numeric event-type enumeration lives in the
header linux/virtio_wdt.h, which is not under src; the spec fixes the stable
enumeration HEARTBEAT = 0, ENABLE = 1, DISABLE = 2. -/
def WdtEvent.val : WdtEvent → Nat
  | .heartbeat => 0
  | .enable => 1
  | .disable => 2

/-- Atomic driver-side actions.  lock, unlock and setTimeoutField are in the
alphabet so that their absence from the driver's code paths is expressible:
the source of send_event and virtwdt_set_timeout never performs them. -/
inductive WdtAction where
  | lock
  | unlock
  | addOutbuf (t : WdtEvent)
  | kick
  | waitReclaim
  | cwrite (v : Nat)
  | setTimeoutField (v : Nat)
  deriving DecidableEq

/-- State of the single event virtqueue: buffers submitted and not yet
consumed by the host, buffers consumed by the host but not yet returned by
virtqueue_get_buf, and buffers already returned to the driver. -/
structure QState where
  inQueue : List WdtEvent
  used : List WdtEvent
  reclaimed : List WdtEvent
  deriving DecidableEq

/-- Number of messages outstanding (submitted, not yet acknowledged by the
host) on the transport. -/
def outstanding (q : QState) : Nat := q.inQueue.length

/-- Embedding of send_event: build the event, virtqueue_add_outbuf,
virtqueue_kick, and for every type other than HEARTBEAT block in
wait_event until virtqueue_get_buf returns a buffer.  No lock is taken. -/
def send_event (t : WdtEvent) : List WdtAction :=
  WdtAction.addOutbuf t :: WdtAction.kick ::
    (if t ≠ WdtEvent.heartbeat then [WdtAction.waitReclaim] else [])

/-- A control operation: the action trace it executes and the value the C
function returns. -/
structure OpSpec where
  trace : List WdtAction
  ret : Int
  deriving DecidableEq

/-- Embedding of virtwdt_ping: send_event(vwdt, VIRTIO_WATCHDOG_HEARTBEAT);
return 0. -/
def virtwdt_ping : OpSpec := ⟨send_event WdtEvent.heartbeat, 0⟩

/-- Embedding of virtwdt_start: send_event(vwdt, VIRTIO_WATCHDOG_ENABLE);
return 0. -/
def virtwdt_start : OpSpec := ⟨send_event WdtEvent.enable, 0⟩

/-- Embedding of virtwdt_stop: send_event(vwdt, VIRTIO_WATCHDOG_DISABLE);
return 0. -/
def virtwdt_stop : OpSpec := ⟨send_event WdtEvent.disable, 0⟩

/-- Embedding of virtwdt_set_timeout: a single virtio_cwrite of the new
timeout to the device configuration space; return 0.  The function neither
queues a message, nor takes the lock, nor writes vwdt.timeout. -/
def virtwdt_set_timeout (v : Nat) : OpSpec := ⟨[WdtAction.cwrite v], 0⟩

/-- Driver-side small steps: each action consumes the head of the program.
waitReclaim can fire only when virtqueue_get_buf has a consumed buffer to
return, i.e. the used list is nonempty; the buffer it returns is the oldest
consumed one, whichever submission it came from. -/
inductive DrvStep : List WdtAction × QState → List WdtAction × QState → Prop where
  | addOutbuf (t : WdtEvent) (p : List WdtAction) (q : QState) :
      DrvStep (WdtAction.addOutbuf t :: p, q) (p, ⟨q.inQueue ++ [t], q.used, q.reclaimed⟩)
  | kick (p : List WdtAction) (q : QState) :
      DrvStep (WdtAction.kick :: p, q) (p, q)
  | waitReclaim (p : List WdtAction) (iq us rc : List WdtEvent) (t : WdtEvent) :
      DrvStep (WdtAction.waitReclaim :: p, ⟨iq, t :: us, rc⟩) (p, ⟨iq, us, rc ++ [t]⟩)
  | lockStep (p : List WdtAction) (q : QState) :
      DrvStep (WdtAction.lock :: p, q) (p, q)
  | unlockStep (p : List WdtAction) (q : QState) :
      DrvStep (WdtAction.unlock :: p, q) (p, q)
  | cwrite (v : Nat) (p : List WdtAction) (q : QState) :
      DrvStep (WdtAction.cwrite v :: p, q) (p, q)
  | setTimeoutField (v : Nat) (p : List WdtAction) (q : QState) :
      DrvStep (WdtAction.setTimeoutField v :: p, q) (p, q)

/-- Full small steps: a driver step, or the host consuming the oldest
submitted buffer (which fires handle_event and makes it reclaimable). -/
inductive SysStep : List WdtAction × QState → List WdtAction × QState → Prop where
  | driver {c c2 : List WdtAction × QState} : DrvStep c c2 → SysStep c c2
  | host (p : List WdtAction) (t : WdtEvent) (iq us rc : List WdtEvent) :
      SysStep (p, ⟨t :: iq, us, rc⟩) (p, ⟨iq, us ++ [t], rc⟩)

/-- Interleaved execution of two concurrent driver calls sharing one queue. -/
inductive TwoStep : List WdtAction × List WdtAction × QState → List WdtAction × List WdtAction × QState → Prop where
  | left {p1 p3 : List WdtAction} {q q2 : QState} (p2 : List WdtAction) :
      DrvStep (p1, q) (p3, q2) → TwoStep (p1, p2, q) (p3, p2, q2)
  | right {p2 p3 : List WdtAction} {q q2 : QState} (p1 : List WdtAction) :
      DrvStep (p2, q) (p3, q2) → TwoStep (p1, p2, q) (p1, p3, q2)
  | host (p1 p2 : List WdtAction) (t : WdtEvent) (iq us rc : List WdtEvent) :
      TwoStep (p1, p2, ⟨t :: iq, us, rc⟩) (p1, p2, ⟨iq, us ++ [t], rc⟩)

/-- Effect of a trace on the Session's cached timeout field vwdt.timeout:
only a setTimeoutField action changes it. -/
def runTimeoutField : List WdtAction → Nat → Nat
  | [], s => s
  | WdtAction.setTimeoutField v :: rest, _ => runTimeoutField rest v
  | _ :: rest, s => runTimeoutField rest s

/-- Value committed to the device configuration space by a trace: the first
cwrite, if any. -/
def committedConfig : List WdtAction → Option Nat
  | [] => none
  | WdtAction.cwrite v :: _ => some v
  | _ :: rest => committedConfig rest

theorem virtwdt_ping_trace_eq :
    virtwdt_ping.trace = [WdtAction.addOutbuf WdtEvent.heartbeat, WdtAction.kick] := by
  simp [virtwdt_ping, send_event]

theorem virtwdt_start_trace_eq :
    virtwdt_start.trace =
      [WdtAction.addOutbuf WdtEvent.enable, WdtAction.kick, WdtAction.waitReclaim] := by
  simp [virtwdt_start, send_event]

theorem virtwdt_stop_trace_eq :
    virtwdt_stop.trace =
      [WdtAction.addOutbuf WdtEvent.disable, WdtAction.kick, WdtAction.waitReclaim] := by
  simp [virtwdt_stop, send_event]

/-- C3: virtwdt_ping executes exactly one buffer submission, of a single
HEARTBEAT message, followed by a kick; it completes with driver steps alone
(no host acknowledgment ever needed, so it returns even if the transport
never reclaims the buffer), and it returns 0. -/
theorem wdt_ping_fire_and_forget :
    virtwdt_ping.trace = [WdtAction.addOutbuf WdtEvent.heartbeat, WdtAction.kick] ∧
    Relation.ReflTransGen DrvStep (virtwdt_ping.trace, ⟨[], [], []⟩)
      ([], ⟨[WdtEvent.heartbeat], [], []⟩) ∧
    virtwdt_ping.ret = 0 := by
  refine ⟨virtwdt_ping_trace_eq, ?_, rfl⟩
  rw [virtwdt_ping_trace_eq]
  exact Relation.ReflTransGen.head
      (DrvStep.addOutbuf WdtEvent.heartbeat [WdtAction.kick] ⟨[], [], []⟩)
    (Relation.ReflTransGen.head
      (DrvStep.kick [] ⟨[WdtEvent.heartbeat], [], []⟩) Relation.ReflTransGen.refl)

/-- C9: every control operation returns the literal 0; no failure code is
produced on any path. -/
theorem wdt_ops_return_zero :
    virtwdt_start.ret = 0 ∧ virtwdt_stop.ret = 0 ∧ virtwdt_ping.ret = 0 ∧
    ∀ v : Nat, (virtwdt_set_timeout v).ret = 0 :=
  ⟨rfl, rfl, rfl, fun _ => rfl⟩

def ENODEV : Int := 19

def EINVAL : Int := 22

def ENOMEM : Int := 12

def VIRTIO_WATCHDOG_HEARTBEAT_TIMEOUT : Nat := 30

def VIRTIO_WATCHDOG_HEARTBEAT_TIMEOUT_MIN : Nat := 1

def VIRTIO_WATCHDOG_HEARTBEAT_TIMEOUT_MAX : Nat := 600

/-- Outcome of virtwdt_init_vq: the value it returns and the error code it
reads off the failed queue handle with PTR_ERR (stored into err). -/
structure InitVqResult where
  ret : Int
  errComputed : Option Int
  deriving DecidableEq

/-- Embedding of virtwdt_init_vq: on failure of virtio_find_single_vq it
assigns err from PTR_ERR but the err_vq exit path returns -ENOMEM. -/
def virtwdt_init_vq (findResult : Except Int Unit) : InitVqResult :=
  match findResult with
  | Except.ok _ => ⟨0, none⟩
  | Except.error e => ⟨-ENOMEM, some e⟩

/-- Resource and lifecycle actions taken by virtwdt_probe. -/
inductive ProbeAction where
  | allocSession
  | freeSession
  | createVq
  | resetDevice
  | delVqs
  | registerDevice
  | deviceReady
  deriving DecidableEq

/-- Environment of one attach attempt: which stage succeeds. -/
structure ProbeEnv where
  hasVersion1 : Bool
  hasConfigGet : Bool
  allocOk : Bool
  vqResult : Except Int Unit
  registerResult : Int

/-- Outcome of virtwdt_probe: return value, the ordered resource actions it
performed, and the cached timeout of the session left reachable (none when
attach failed). -/
structure ProbeResult where
  result : Int
  trace : List ProbeAction
  sessionTimeout : Option Nat
  deriving DecidableEq

/-- Embedding of virtwdt_probe: feature check, config-access check, kzalloc,
virtwdt_init_vq, watchdog_register_device, with the source's unwind order
(free_dev resets the device and deletes the vqs before free frees the
session). -/
def virtwdt_probe (env : ProbeEnv) : ProbeResult :=
  if env.hasVersion1 = false then ⟨-ENODEV, [], none⟩
  else if env.hasConfigGet = false then ⟨-EINVAL, [], none⟩
  else if env.allocOk = false then ⟨-ENOMEM, [], none⟩
  else if (virtwdt_init_vq env.vqResult).ret ≠ 0 then
    ⟨(virtwdt_init_vq env.vqResult).ret,
      [ProbeAction.allocSession, ProbeAction.freeSession], none⟩
  else if env.registerResult ≠ 0 then
    ⟨env.registerResult,
      [ProbeAction.allocSession, ProbeAction.createVq, ProbeAction.resetDevice,
        ProbeAction.delVqs, ProbeAction.freeSession], none⟩
  else
    ⟨0, [ProbeAction.allocSession, ProbeAction.createVq, ProbeAction.registerDevice,
        ProbeAction.deviceReady], some VIRTIO_WATCHDOG_HEARTBEAT_TIMEOUT⟩

/-- Sessions still allocated after a probe trace. -/
def heldSessions (tr : List ProbeAction) : Nat :=
  tr.count ProbeAction.allocSession - tr.count ProbeAction.freeSession

/-- Virtqueues still allocated after a probe trace. -/
def heldVqs (tr : List ProbeAction) : Nat :=
  tr.count ProbeAction.createVq - tr.count ProbeAction.delVqs

/-- Supported timeout range of the device, [1, 600]. -/
def inRange (n : Nat) : Prop :=
  VIRTIO_WATCHDOG_HEARTBEAT_TIMEOUT_MIN ≤ n ∧ n ≤ VIRTIO_WATCHDOG_HEARTBEAT_TIMEOUT_MAX

/-- C10: when the virtqueue cannot be found, virtwdt_init_vq computes the
underlying error code from the failed handle but discards it and returns
the fixed code -ENOMEM, whatever the underlying failure was. -/
theorem wdt_init_vq_enomem :
    ∀ e : Int, (virtwdt_init_vq (Except.error e)).ret = -ENOMEM ∧
      (virtwdt_init_vq (Except.error e)).errComputed = some e :=
  fun _ => ⟨rfl, rfl⟩

/-- C7: an attach lacking the version-1 feature or config access is refused
before any resource is touched; every failing attach leaves no session and
no queue held, no session reachable, and when the queue had been created it
is destroyed before the session memory is freed. -/
theorem wdt_probe_failure_cleanup :
    ∀ env : ProbeEnv,
      ((env.hasVersion1 = false ∨ env.hasConfigGet = false) →
        (virtwdt_probe env).result ≠ 0 ∧ (virtwdt_probe env).trace = [] ∧
        (virtwdt_probe env).sessionTimeout = none) ∧
      ((virtwdt_probe env).result ≠ 0 →
        heldSessions (virtwdt_probe env).trace = 0 ∧
        heldVqs (virtwdt_probe env).trace = 0 ∧
        (virtwdt_probe env).sessionTimeout = none ∧
        (ProbeAction.createVq ∈ (virtwdt_probe env).trace →
          (virtwdt_probe env).trace.indexOf ProbeAction.delVqs <
            (virtwdt_probe env).trace.indexOf ProbeAction.freeSession)) := by
  intro env
  obtain ⟨v1, cfg, alloc, vq, reg⟩ := env
  by_cases hreg : reg = 0 <;>
    cases v1 <;> cases cfg <;> cases alloc <;> rcases vq with e | u <;>
      simp_all [virtwdt_probe, virtwdt_init_vq, heldSessions, heldVqs,
        ENODEV, EINVAL, ENOMEM]

/-- C7 witness: a feature-less attach is refused with an empty trace, and a
probe failing at device registration holds no session afterwards. -/
theorem wdt_probe_failure_cleanup_witness :
    (virtwdt_probe ⟨false, true, true, Except.ok (), 0⟩).trace = [] ∧
    heldSessions (virtwdt_probe ⟨true, true, true, Except.ok (), -5⟩).trace = 0 :=
  ⟨((wdt_probe_failure_cleanup ⟨false, true, true, Except.ok (), 0⟩).1
      (Or.inl rfl)).2.1,
   ((wdt_probe_failure_cleanup ⟨true, true, true, Except.ok (), -5⟩).2
      (by decide)).1⟩

/-- C6: when probe succeeds the Session's cached timeout is the default 30,
inside the supported range, and no control operation changes the cached
timeout field, so the invariant is preserved by start, stop, ping and
set_timeout. -/
theorem wdt_session_timeout_invariant :
    ∀ env : ProbeEnv, (virtwdt_probe env).result = 0 →
      (virtwdt_probe env).sessionTimeout = some VIRTIO_WATCHDOG_HEARTBEAT_TIMEOUT ∧
      inRange VIRTIO_WATCHDOG_HEARTBEAT_TIMEOUT ∧
      ∀ s : Nat,
        runTimeoutField virtwdt_start.trace s = s ∧
        runTimeoutField virtwdt_stop.trace s = s ∧
        runTimeoutField virtwdt_ping.trace s = s ∧
        ∀ v : Nat, runTimeoutField (virtwdt_set_timeout v).trace s = s := by
  intro env h
  refine ⟨?_, ⟨by decide, by decide⟩, ?_⟩
  · unfold virtwdt_probe at h ⊢
    split_ifs at h ⊢ <;> simp_all [ENODEV, EINVAL, ENOMEM]
  · intro s
    refine ⟨?_, ?_, ?_, fun v => ?_⟩ <;>
      simp [virtwdt_start_trace_eq, virtwdt_stop_trace_eq, virtwdt_ping_trace_eq,
        virtwdt_set_timeout, runTimeoutField]

/-- C6 witness: a fully successful probe leaves the cached timeout at 30 and
a start call leaves the cached value 30 unchanged. -/
theorem wdt_session_timeout_invariant_witness :
    (virtwdt_probe ⟨true, true, true, Except.ok (), 0⟩).sessionTimeout =
      some VIRTIO_WATCHDOG_HEARTBEAT_TIMEOUT ∧
    runTimeoutField virtwdt_start.trace 30 = 30 :=
  ⟨(wdt_session_timeout_invariant ⟨true, true, true, Except.ok (), 0⟩ (by decide)).1,
   ((wdt_session_timeout_invariant ⟨true, true, true, Except.ok (), 0⟩
      (by decide)).2.2 30).1⟩

/-- Modelled from the spec: watchdog_init_timeout of the watchdog core is
not under src; per the spec, configuration-time default resolution clamps an
externally supplied default timeout into the supported range and falls back
to the preset default when none is given. -/
def watchdog_init_timeout (wddTimeout timeoutParm minT maxT : Nat) : Nat :=
  if timeoutParm = 0 then wddTimeout else min (max timeoutParm minT) maxT

/-- Timeout resolved at probe time: virtwdt_probe presets wdd.timeout to 30
and the advertised bounds to 1 and 600 before resolving the module
parameter. -/
def probeResolvedTimeout (timeoutParm : Nat) : Nat :=
  watchdog_init_timeout VIRTIO_WATCHDOG_HEARTBEAT_TIMEOUT timeoutParm
    VIRTIO_WATCHDOG_HEARTBEAT_TIMEOUT_MIN VIRTIO_WATCHDOG_HEARTBEAT_TIMEOUT_MAX

/-- Modelled from the spec: the watchdog core caller (not under src) commits
a set_timeout request to the driver only after validating it against the
advertised range; the committed value is the one virtwdt_set_timeout writes
to the configuration space. -/
def watchdog_core_set_timeout (v : Nat) : Option Nat :=
  if VIRTIO_WATCHDOG_HEARTBEAT_TIMEOUT_MIN ≤ v ∧ v ≤ VIRTIO_WATCHDOG_HEARTBEAT_TIMEOUT_MAX
  then committedConfig (virtwdt_set_timeout v).trace
  else none

/-- C5: every value a set_timeout request commits to the device lies in
the supported range [1, 600], and probe-time default resolution yields a
value in range, equal to 30 when no module parameter was given. -/
theorem wdt_timeout_bounds :
    (∀ v c : Nat, watchdog_core_set_timeout v = some c → inRange c) ∧
    (∀ p : Nat, inRange (probeResolvedTimeout p) ∧
      (p = 0 → probeResolvedTimeout p = VIRTIO_WATCHDOG_HEARTBEAT_TIMEOUT)) := by
  constructor
  · intro v c h
    unfold watchdog_core_set_timeout at h
    split_ifs at h with hv
    simp [virtwdt_set_timeout, committedConfig] at h
    subst h
    exact hv
  · intro p
    constructor
    · unfold probeResolvedTimeout watchdog_init_timeout
      split_ifs with hp
      · exact ⟨by decide, by decide⟩
      · constructor
        · simp [inRange, VIRTIO_WATCHDOG_HEARTBEAT_TIMEOUT_MIN,
            VIRTIO_WATCHDOG_HEARTBEAT_TIMEOUT_MAX]
        · simp [VIRTIO_WATCHDOG_HEARTBEAT_TIMEOUT_MAX]
    · intro hp
      simp [probeResolvedTimeout, watchdog_init_timeout, hp]

/-- C5 witness: the value 45 is committed as 45, inside the range, and
default resolution with no module parameter yields 30. -/
theorem wdt_timeout_bounds_witness :
    inRange 45 ∧ probeResolvedTimeout 0 = VIRTIO_WATCHDOG_HEARTBEAT_TIMEOUT :=
  ⟨wdt_timeout_bounds.1 45 45 (by decide), (wdt_timeout_bounds.2 0).2 rfl⟩

/-- Little-endian byte layout of a 16-bit value. -/
def le16 (x : Nat) : List Nat := [x % 256, x / 256 % 256]

/-- Big-endian byte layout of a 16-bit value. -/
def be16 (x : Nat) : List Nat := [x / 256 % 256, x % 256]

/-- Modelled from the spec: the virtio byte-order helper cpu_to_virtio16 is
not under src; it encodes little-endian whenever the VIRTIO_F_VERSION_1
feature was negotiated, and host-native order on a legacy big-endian host. -/
def cpu_to_virtio16 (version1 hostBigEndian : Bool) (x : Nat) : List Nat :=
  if version1 then le16 x else if hostBigEndian then be16 x else le16 x

/-- Wire bytes of the struct virtio_watchdog_event that send_event builds: a
single 16-bit type tag converted with cpu_to_virtio16. -/
def eventWireBytes (version1 hostBigEndian : Bool) (t : WdtEvent) : List Nat :=
  cpu_to_virtio16 version1 hostBigEndian (WdtEvent.val t)

/-- C8: with the version-1 feature negotiated (virtwdt_probe refuses the
device without it) the wire representation of every event is the fixed-width
little-endian encoding of its type tag, identical on every host byte
order. -/
theorem wdt_wire_little_endian :
    ∀ (b1 b2 : Bool) (t : WdtEvent),
      eventWireBytes true b1 t = le16 (WdtEvent.val t) ∧
      (eventWireBytes true b1 t).length = 2 ∧
      eventWireBytes true b1 t = eventWireBytes true b2 t ∧
      ∀ env : ProbeEnv, env.hasVersion1 = false → (virtwdt_probe env).result ≠ 0 := by
  intro b1 b2 t
  refine ⟨rfl, rfl, rfl, ?_⟩
  intro env h
  obtain ⟨v1, cfg, alloc, vq, reg⟩ := env
  simp only at h
  subst h
  simp [virtwdt_probe, ENODEV]

/-- C8 witness: the concrete ENABLE tag is encoded as the little-endian
bytes of 1 on a big-endian host, and a probe without the version-1 feature
fails. -/
theorem wdt_wire_little_endian_witness :
    eventWireBytes true true WdtEvent.enable = le16 (WdtEvent.val WdtEvent.enable) ∧
    (virtwdt_probe ⟨false, true, true, Except.ok (), 0⟩).result ≠ 0 :=
  ⟨(wdt_wire_little_endian true true WdtEvent.enable).1,
   (wdt_wire_little_endian true true WdtEvent.enable).2.2.2
     ⟨false, true, true, Except.ok (), 0⟩ rfl⟩

/-- C4 counterexample: virtwdt_set_timeout with new value 45 leaves the
Session's cached timeout field at its prior value 30 instead of updating it
to 45, and never takes the access lock. -/
theorem wdt_set_timeout_cache_cex :
    runTimeoutField (virtwdt_set_timeout 45).trace 30 = 30 ∧
    (30 : Nat) ≠ 45 ∧
    WdtAction.lock ∉ (virtwdt_set_timeout 45).trace :=
  ⟨rfl, by decide, by decide⟩

/-- C4 (amended): virtwdt_set_timeout pushes no message onto the transport
queue and commits the new value directly to the device configuration
channel, but it does not update the Session's cached timeout field (which
keeps its prior value) and it takes no lock. -/
theorem wdt_set_timeout_config_only :
    ∀ v s : Nat,
      (∀ t : WdtEvent, WdtAction.addOutbuf t ∉ (virtwdt_set_timeout v).trace) ∧
      WdtAction.kick ∉ (virtwdt_set_timeout v).trace ∧
      committedConfig (virtwdt_set_timeout v).trace = some v ∧
      runTimeoutField (virtwdt_set_timeout v).trace s = s ∧
      WdtAction.lock ∉ (virtwdt_set_timeout v).trace ∧
      (virtwdt_set_timeout v).ret = 0 := by
  intro v s
  exact ⟨fun t => by simp [virtwdt_set_timeout], by simp [virtwdt_set_timeout],
    rfl, rfl, by simp [virtwdt_set_timeout], rfl⟩

/-- Interleaving of two concurrent ping calls in which the first call runs
to completion before the second: it ends with both HEARTBEAT buffers still
unconsumed on the queue. -/
theorem two_ping_run :
    Relation.ReflTransGen TwoStep
      (virtwdt_ping.trace, virtwdt_ping.trace, ⟨[], [], []⟩)
      ([], [], ⟨[WdtEvent.heartbeat, WdtEvent.heartbeat], [], []⟩) := by
  rw [virtwdt_ping_trace_eq]
  exact Relation.ReflTransGen.head
      (TwoStep.left _ (DrvStep.addOutbuf WdtEvent.heartbeat [WdtAction.kick] ⟨[], [], []⟩))
    (Relation.ReflTransGen.head
      (TwoStep.left _ (DrvStep.kick [] ⟨[WdtEvent.heartbeat], [], []⟩))
    (Relation.ReflTransGen.head
      (TwoStep.right _ (DrvStep.addOutbuf WdtEvent.heartbeat [WdtAction.kick]
        ⟨[WdtEvent.heartbeat], [], []⟩))
    (Relation.ReflTransGen.head
      (TwoStep.right _ (DrvStep.kick []
        ⟨[WdtEvent.heartbeat, WdtEvent.heartbeat], [], []⟩))
      Relation.ReflTransGen.refl)))

/-- C1 counterexample: an interleaving of two concurrent ping calls leaves
two unacknowledged HEARTBEAT messages outstanding on the transport at once,
and neither ping, start nor stop ever acquires the access lock. -/
theorem wdt_two_outstanding_cex :
    Relation.ReflTransGen TwoStep
      (virtwdt_ping.trace, virtwdt_ping.trace, ⟨[], [], []⟩)
      ([], [], ⟨[WdtEvent.heartbeat, WdtEvent.heartbeat], [], []⟩) ∧
    outstanding ⟨[WdtEvent.heartbeat, WdtEvent.heartbeat], [], []⟩ = 2 ∧
    WdtAction.lock ∉ virtwdt_ping.trace ∧
    WdtAction.lock ∉ virtwdt_start.trace ∧
    WdtAction.lock ∉ virtwdt_stop.trace :=
  ⟨two_ping_run, rfl, by decide, by decide, by decide⟩

/-- C1 (amended): no operation acquires the Session's access lock (the lock
field is declared in struct virtio_wdt but never taken on the submission
paths), and at-most-one-outstanding does not hold: an interleaving of two
concurrent ping calls reaches a state with two messages outstanding. -/
theorem wdt_no_lock_serialization :
    (∀ t : WdtEvent, WdtAction.lock ∉ send_event t ∧ WdtAction.unlock ∉ send_event t) ∧
    (∀ v : Nat, WdtAction.lock ∉ (virtwdt_set_timeout v).trace) ∧
    ∃ qf : QState,
      Relation.ReflTransGen TwoStep
        (virtwdt_ping.trace, virtwdt_ping.trace, ⟨[], [], []⟩) ([], [], qf) ∧
      2 ≤ outstanding qf := by
  refine ⟨fun t => ?_, fun v => by simp [virtwdt_set_timeout],
    ⟨⟨[WdtEvent.heartbeat, WdtEvent.heartbeat], [], []⟩, two_ping_run, by decide⟩⟩
  cases t <;> exact ⟨by decide, by decide⟩

/-- Driver steps alone can never complete a synchronous send_event trace
from the empty queue: the wait can only fire after a host consumption. -/
theorem sync_no_driver_completion (t : WdtEvent) (qf : QState) :
    ¬ Relation.ReflTransGen DrvStep
      ([WdtAction.addOutbuf t, WdtAction.kick, WdtAction.waitReclaim], ⟨[], [], []⟩)
      ([], qf) := by
  intro h
  rcases h.cases_head with h0 | ⟨c1, s1, h1⟩
  · simp at h0
  · cases s1
    rcases h1.cases_head with h0 | ⟨c2, s2, h2⟩
    · simp at h0
    · cases s2
      rcases h2.cases_head with h0 | ⟨c3, s3, h3⟩
      · simp at h0
      · cases s3

/-- Invariant of every execution of a synchronous send_event trace started
on the empty queue. -/
def syncInv (t : WdtEvent) (c : List WdtAction × QState) : Prop :=
  (c.1 = [WdtAction.addOutbuf t, WdtAction.kick, WdtAction.waitReclaim] ∧
    c.2 = ⟨[], [], []⟩) ∨
  ((c.1 = [WdtAction.kick, WdtAction.waitReclaim] ∨ c.1 = [WdtAction.waitReclaim]) ∧
    ((c.2.inQueue = [t] ∧ c.2.used = []) ∨ (c.2.inQueue = [] ∧ c.2.used = [t])) ∧
    c.2.reclaimed = []) ∨
  (c.1 = [] ∧ c.2 = ⟨[], [], [t]⟩)

theorem syncInv_step {t : WdtEvent} {c c2 : List WdtAction × QState}
    (hinv : syncInv t c) (hs : SysStep c c2) : syncInv t c2 := by
  cases hs with
  | driver hd =>
    cases hd with
    | addOutbuf t2 p q =>
      rcases hinv with ⟨h1, h2⟩ | ⟨hp | hp, hq, hr⟩ | ⟨h1, h2⟩
      · simp only [List.cons.injEq] at h1
        obtain ⟨hh, h1⟩ := h1
        obtain rfl : t2 = t := WdtAction.addOutbuf.inj hh
        subst h1 h2
        exact Or.inr (Or.inl ⟨Or.inl rfl, Or.inl ⟨rfl, rfl⟩, rfl⟩)
      · simp at hp
      · simp at hp
      · simp at h1
    | kick p q =>
      rcases hinv with ⟨h1, h2⟩ | ⟨hp | hp, hq, hr⟩ | ⟨h1, h2⟩
      · simp at h1
      · simp only [List.cons.injEq] at hp
        obtain ⟨-, hp⟩ := hp
        subst hp
        exact Or.inr (Or.inl ⟨Or.inr rfl, hq, hr⟩)
      · simp at hp
      · simp at h1
    | waitReclaim p iq us rc t2 =>
      rcases hinv with ⟨h1, h2⟩ | ⟨hp | hp, hq, hr⟩ | ⟨h1, h2⟩
      · simp at h1
      · simp at hp
      · simp only [List.cons.injEq] at hp
        obtain ⟨-, hp⟩ := hp
        subst hp
        rcases hq with ⟨hiq, hus⟩ | ⟨hiq, hus⟩
        · simp at hus
        · simp only [List.cons.injEq] at hus
          obtain ⟨rfl, rfl⟩ := hus
          subst hiq hr
          exact Or.inr (Or.inr ⟨rfl, rfl⟩)
      · simp at h1
    | lockStep p q =>
      rcases hinv with ⟨h1, h2⟩ | ⟨hp | hp, hq, hr⟩ | ⟨h1, h2⟩ <;> simp at *
    | unlockStep p q =>
      rcases hinv with ⟨h1, h2⟩ | ⟨hp | hp, hq, hr⟩ | ⟨h1, h2⟩ <;> simp at *
    | cwrite v p q =>
      rcases hinv with ⟨h1, h2⟩ | ⟨hp | hp, hq, hr⟩ | ⟨h1, h2⟩ <;> simp at *
    | setTimeoutField v p q =>
      rcases hinv with ⟨h1, h2⟩ | ⟨hp | hp, hq, hr⟩ | ⟨h1, h2⟩ <;> simp at *
  | host p t2 iq us rc =>
    rcases hinv with ⟨h1, h2⟩ | ⟨hp, hq, hr⟩ | ⟨h1, h2⟩
    · exact absurd (congrArg QState.inQueue h2) (by simp)
    · rcases hq with ⟨hiq, hus⟩ | ⟨hiq, hus⟩
      · simp only [List.cons.injEq] at hiq
        obtain ⟨rfl, rfl⟩ := hiq
        subst hus hr
        exact Or.inr (Or.inl ⟨hp, Or.inr ⟨rfl, rfl⟩, rfl⟩)
      · simp at hiq
    · exact absurd (congrArg QState.inQueue h2) (by simp)

theorem syncInv_reach {t : WdtEvent} {c : List WdtAction × QState}
    (h : Relation.ReflTransGen SysStep
      ([WdtAction.addOutbuf t, WdtAction.kick, WdtAction.waitReclaim], ⟨[], [], []⟩) c) :
    syncInv t c := by
  induction h with
  | refl => exact Or.inl ⟨rfl, rfl⟩
  | tail hsteps hstep ih => exact syncInv_step ih hstep

/-- C2 (amended): start and stop block on the completion signal with the
wake predicate virtqueue_get_buf and no timeout: with a transport that
never consumes a buffer they never return, and from a queue with no prior
submissions every completed execution ends with exactly the submitted
buffer consumed by the host and reclaimed by the wait.  The wake predicate
is however satisfied by any reclaimable buffer, so a consumed-but-never-
reclaimed buffer left by an earlier ping also completes the wait. -/
theorem wdt_sync_wait_semantics :
    (∀ qf : QState, ¬ Relation.ReflTransGen DrvStep
      (virtwdt_start.trace, ⟨[], [], []⟩) ([], qf)) ∧
    (∀ qf : QState, ¬ Relation.ReflTransGen DrvStep
      (virtwdt_stop.trace, ⟨[], [], []⟩) ([], qf)) ∧
    (∀ qf : QState, Relation.ReflTransGen SysStep
      (virtwdt_start.trace, ⟨[], [], []⟩) ([], qf) →
      qf = ⟨[], [], [WdtEvent.enable]⟩) ∧
    (∀ qf : QState, Relation.ReflTransGen SysStep
      (virtwdt_stop.trace, ⟨[], [], []⟩) ([], qf) →
      qf = ⟨[], [], [WdtEvent.disable]⟩) := by
  refine ⟨?_, ?_, ?_, ?_⟩
  · rw [virtwdt_start_trace_eq]
    exact sync_no_driver_completion WdtEvent.enable
  · rw [virtwdt_stop_trace_eq]
    exact sync_no_driver_completion WdtEvent.disable
  · rw [virtwdt_start_trace_eq]
    intro qf h
    rcases syncInv_reach h with ⟨h1, h2⟩ | ⟨hp | hp, hq, hr⟩ | ⟨h1, h2⟩
    · simp at h1
    · simp at hp
    · simp at hp
    · exact h2
  · rw [virtwdt_stop_trace_eq]
    intro qf h
    rcases syncInv_reach h with ⟨h1, h2⟩ | ⟨hp | hp, hq, hr⟩ | ⟨h1, h2⟩
    · simp at h1
    · simp at hp
    · simp at hp
    · exact h2

/-- Execution of start in which the host consumes the ENABLE buffer after
the kick and the wait then reclaims it. -/
theorem start_complete_run :
    Relation.ReflTransGen SysStep (virtwdt_start.trace, ⟨[], [], []⟩)
      ([], ⟨[], [], [WdtEvent.enable]⟩) := by
  rw [virtwdt_start_trace_eq]
  exact Relation.ReflTransGen.head
      (SysStep.driver (DrvStep.addOutbuf WdtEvent.enable
        [WdtAction.kick, WdtAction.waitReclaim] ⟨[], [], []⟩))
    (Relation.ReflTransGen.head
      (SysStep.driver (DrvStep.kick [WdtAction.waitReclaim]
        ⟨[WdtEvent.enable], [], []⟩))
    (Relation.ReflTransGen.head
      (SysStep.host [WdtAction.waitReclaim] WdtEvent.enable [] [] [])
    (Relation.ReflTransGen.head
      (SysStep.driver (DrvStep.waitReclaim [] [] [] [] WdtEvent.enable))
      Relation.ReflTransGen.refl)))

/-- C2 witness: a concrete completed execution of start ends with exactly
its ENABLE buffer reclaimed, and no driver-only execution of start on the
empty queue reaches completion. -/
theorem wdt_sync_wait_semantics_witness :
    (⟨[], [], [WdtEvent.enable]⟩ : QState) = ⟨[], [], [WdtEvent.enable]⟩ ∧
    ¬ Relation.ReflTransGen DrvStep (virtwdt_start.trace, ⟨[], [], []⟩)
      ([], ⟨[], [], []⟩) :=
  ⟨wdt_sync_wait_semantics.2.2.1 ⟨[], [], [WdtEvent.enable]⟩ start_complete_run,
   wdt_sync_wait_semantics.1 ⟨[], [], []⟩⟩

/-- C2 counterexample: after a ping whose HEARTBEAT buffer the host
consumed but nobody reclaimed, a subsequent start runs to completion with
no further host activity: its wait reclaims the stale HEARTBEAT buffer and
start returns while the ENABLE message it submitted is still
unacknowledged in the queue. -/
theorem wdt_stale_ack_cex :
    Relation.ReflTransGen SysStep
      (virtwdt_ping.trace ++ virtwdt_start.trace, ⟨[], [], []⟩)
      ([], ⟨[WdtEvent.enable], [], [WdtEvent.heartbeat]⟩) ∧
    (⟨[WdtEvent.enable], [], [WdtEvent.heartbeat]⟩ : QState).inQueue =
      [WdtEvent.enable] ∧
    WdtEvent.enable ∉
      (⟨[WdtEvent.enable], [], [WdtEvent.heartbeat]⟩ : QState).reclaimed := by
  refine ⟨?_, rfl, by decide⟩
  rw [virtwdt_ping_trace_eq, virtwdt_start_trace_eq]
  exact Relation.ReflTransGen.head
      (SysStep.driver (DrvStep.addOutbuf WdtEvent.heartbeat _ ⟨[], [], []⟩))
    (Relation.ReflTransGen.head
      (SysStep.driver (DrvStep.kick _ ⟨[WdtEvent.heartbeat], [], []⟩))
    (Relation.ReflTransGen.head
      (SysStep.host _ WdtEvent.heartbeat [] [] [])
    (Relation.ReflTransGen.head
      (SysStep.driver (DrvStep.addOutbuf WdtEvent.enable _
        ⟨[], [WdtEvent.heartbeat], []⟩))
    (Relation.ReflTransGen.head
      (SysStep.driver (DrvStep.kick _
        ⟨[WdtEvent.enable], [WdtEvent.heartbeat], []⟩))
    (Relation.ReflTransGen.head
      (SysStep.driver (DrvStep.waitReclaim [] [WdtEvent.enable] [] []
        WdtEvent.heartbeat))
      Relation.ReflTransGen.refl)))))
